import Mathlib

/-!
Verification of the forecast-generation pipeline of `src/forecast_backend.py`
(a Flask service combining a pickled classifier with a deterministic feature
synthesizer, an AQI index mapper and a time-series assembler).

Shallow embedding conventions:
* Python floats are modelled as real numbers; `np.sin` / `np.cos` / `np.pi`
  become `Real.sin` / `Real.cos` / `Real.pi`.
* The pickled XGBoost model is an opaque external collaborator: it is a
  parameter `model : Option (List ℝ → Except String ℤ)` of the pipeline
  (`None` when loading failed, and `model.predict` may raise, hence `Except`).
* `np.random.randint` is ambient global randomness: it is modelled as a
  stream `randint : ℕ → ℤ → ℤ → ℤ` giving the value of the k-th call on
  bounds `lo hi` (contractually in `[lo, hi)` — hypotheses state this).
* `datetime.now()` is the ambient clock: a stream `now : ℕ → ℚ` of readings
  in hours since an arbitrary epoch, one per call made by the code.
* `strftime('%a')` / `strftime('%b %d')` are Python-library formatters whose
  exact text no property here depends on; they are abstract fields of `Deps`.
* A Flask `(jsonify({'error': ...}), code)` response is `Except.error (msg, code)`;
  a successful `jsonify` payload is `Except.ok` of a response structure.
-/

namespace ForecastBackend

/-- `CATEGORY_TO_AQI` dict from the source (lines 27-34): category → inclusive
(min, max) AQI range; `none` when the key is absent. -/
def CATEGORY_TO_AQI (category : ℤ) : Option (ℤ × ℤ) :=
  if category = 0 then some (100, 200)
  else if category = 1 then some (200, 350)
  else if category = 2 then some (350, 500)
  else if category = 3 then some (500, 700)
  else if category = 4 then some (700, 900)
  else if category = 5 then some (900, 1000)
  else none

/-- `map_category_to_aqi` (lines 36-41): `CATEGORY_TO_AQI.get(category, (100, 200))`
then `np.random.randint(min_aqi, max_aqi + 1)`.  The random draw is passed in as
`randint lo hi`, the value `np.random.randint(lo, hi)` returns (in `[lo, hi)`). -/
def map_category_to_aqi (randint : ℤ → ℤ → ℤ) (category : ℤ) : ℤ :=
  let p := (CATEGORY_TO_AQI category).getD (100, 200)
  randint p.1 (p.2 + 1)

/-- `hour_factor = np.sin(hours_ahead / 12 * np.pi) * 0.15` (line 49). -/
noncomputable def hour_factor (hours_ahead : ℕ) : ℝ :=
  Real.sin ((hours_ahead : ℝ) / 12 * Real.pi) * 0.15

/-- `temp_cycle = np.cos(hours_ahead / 12 * np.pi) * 3` (line 56). -/
noncomputable def temp_cycle (hours_ahead : ℕ) : ℝ :=
  Real.cos ((hours_ahead : ℝ) / 12 * Real.pi) * 3

/-- `generate_forecast_features` (lines 43-71), returning the 4-element feature
list `[pm25, temp, humidity, wind]` with the source's clamps. -/
noncomputable def generate_forecast_features (base_pm25 base_temp base_humidity base_wind : ℝ)
    (hours_ahead : ℕ) : List ℝ :=
  let pm25_variation := hour_factor hours_ahead * base_pm25 * 0.2
  let pm25 := base_pm25 * (1 + hour_factor hours_ahead) + pm25_variation
  let temp := base_temp + temp_cycle hours_ahead
  let humidity := base_humidity - (temp_cycle hours_ahead * 2)
  let wind_cycle := Real.sin ((hours_ahead : ℝ) / 8 * Real.pi) * base_wind * 0.2
  let wind := base_wind + wind_cycle
  [max 0 pm25,
   max (-20) (min 50 temp),
   max 0 (min 100 humidity),
   max 0.1 wind]

/-- Python's `round(x, 1)`: round to one decimal place.  (Ties are rounded
half-up here rather than half-to-even; no property below evaluates at a tie.) -/
noncomputable def roundTo1 (x : ℝ) : ℝ :=
  ((round (x * 10) : ℤ) : ℝ) / 10

/-- The request body of `POST /forecast` with the `data.get` defaults of
lines 91-95. -/
structure ForecastRequest where
  pm25 : ℝ := 150
  temperature : ℝ := 20
  humidity : ℝ := 60
  wind_speed : ℝ := 5
  type : String := "hourly"

/-- One `forecast_point` dict (lines 128-136). -/
structure ForecastPoint where
  time : ℚ
  aqi : ℤ
  hour : Option ℤ
  day : Option String
  date : Option String
  category : ℤ
  pm25 : ℝ

/-- The success payload of `/forecast` (lines 140-146). -/
structure ForecastResponse where
  status : String
  forecast_type : String
  forecasts : List ForecastPoint
  aqi_range : ℤ × ℤ
  model_used : String

/-- Ambient collaborators of the pipeline: the loaded model (or `none`),
the `np.random.randint` stream, the `datetime.now()` clock stream (hours
since an epoch), and the two `strftime` formatters. -/
structure Deps where
  model : Option (List ℝ → Except String ℤ)
  randint : ℕ → ℤ → ℤ → ℤ
  now : ℕ → ℚ
  strftime_a : ℚ → String
  strftime_bd : ℚ → String

/-- The `if/elif/else` of lines 99-110 choosing `(hours_to_predict, interval_hours)`
from the request's `type`; any unrecognized value falls into the `else`
(extended) branch. -/
def forecast_params (forecast_type : String) : ℕ × ℕ :=
  if forecast_type = "hourly" then (48, 1)
  else if forecast_type = "daily" then (7 * 24, 24)
  else (14 * 24, 24)

/-- Number of iterations of Python's `range(0, stop, step)` for `step > 0`. -/
def pyRangeLen (stop step : ℕ) : ℕ :=
  (stop + step - 1) / step

/-- The body of the loop at lines 112-138 for its k-th iteration (offset
`i = k * interval_hours`): synthesize features, classify (which may raise),
draw an AQI, read the clock, and build the point dict. -/
noncomputable def forecast_point (deps : Deps) (classify : List ℝ → Except String ℤ)
    (req : ForecastRequest) (interval_hours k : ℕ) : Except String ForecastPoint :=
  let i := k * interval_hours
  let features := generate_forecast_features req.pm25 req.temperature req.humidity req.wind_speed i
  (classify features).map fun category =>
    let aqi := map_category_to_aqi (deps.randint k) category
    let forecast_time := deps.now k + (i : ℚ)
    { time := forecast_time
      aqi := aqi
      hour := if interval_hours = 1 then some (⌊forecast_time⌋ % 24) else none
      day := if interval_hours = 24 then some (deps.strftime_a forecast_time) else none
      date := if interval_hours = 24 then some (deps.strftime_bd forecast_time) else none
      category := category
      pm25 := roundTo1 (features.getD 0 0) }

/-- The `forecasts = []; for ...: forecasts.append(...)` accumulation inside
the `try` block: produce `[f i, f (i+1), ..., f (i+n-1)]`, aborting with the
first raised error (Python's exception unwinds the whole loop, discarding the
partial list). -/
def assembleFrom {ε α : Type} (f : ℕ → Except ε α) : ℕ → ℕ → Except ε (List α)
  | _, 0 => .ok []
  | i, n + 1 => (f i).bind fun a => (assembleFrom f (i + 1) n).map fun rest => a :: rest

/-- The `/forecast` handler (lines 81-149): refuse with a 500 when the model is
not loaded; otherwise run the assembly loop, wrapping any raised error as the
single 400 error response of the `except` clause, and on success return the
payload of lines 140-146. -/
noncomputable def forecast (deps : Deps) (req : ForecastRequest) :
    Except (String × ℕ) ForecastResponse :=
  match deps.model with
  | none => .error ("Model not loaded", 500)
  | some classify =>
    match assembleFrom (forecast_point deps classify req (forecast_params req.type).2) 0
        (pyRangeLen (forecast_params req.type).1 (forecast_params req.type).2) with
    | .error e => .error (e, 400)
    | .ok forecasts =>
      .ok { status := "success"
            forecast_type := req.type
            forecasts := forecasts
            aqi_range := (100, 1000)
            model_used := "xgboost_pm25_classifier" }

/-- The point the k-th iteration produces when the classifier is the total
function `catF` (no exception raised). -/
noncomputable def purePoint (deps : Deps) (catF : List ℝ → ℤ) (req : ForecastRequest)
    (interval_hours k : ℕ) : ForecastPoint :=
  let i := k * interval_hours
  let features := generate_forecast_features req.pm25 req.temperature req.humidity req.wind_speed i
  let category := catF features
  let aqi := map_category_to_aqi (deps.randint k) category
  let forecast_time := deps.now k + (i : ℚ)
  { time := forecast_time
    aqi := aqi
    hour := if interval_hours = 1 then some (⌊forecast_time⌋ % 24) else none
    day := if interval_hours = 24 then some (deps.strftime_a forecast_time) else none
    date := if interval_hours = 24 then some (deps.strftime_bd forecast_time) else none
    category := category
    pm25 := roundTo1 (features.getD 0 0) }

/-- The whole success payload when the classifier is the total function `catF`. -/
noncomputable def pureForecast (deps : Deps) (catF : List ℝ → ℤ) (req : ForecastRequest) :
    ForecastResponse :=
  { status := "success"
    forecast_type := req.type
    forecasts := (List.range (pyRangeLen (forecast_params req.type).1 (forecast_params req.type).2)).map
      (purePoint deps catF req (forecast_params req.type).2)
    aqi_range := (100, 1000)
    model_used := "xgboost_pm25_classifier" }

/-- The FeatureSynthesizer contract exactly as §4.1 of the spec words it
(spec-side definition for the refinement claim): `hourFactor`, projected pm25
clamped to ≥0, `tempCycle`, temperature clamped to [-20,50], humidity clamped
to [0,100], `windCycle`, wind clamped to ≥0.1 — returned as the ordered
4-tuple (pm25, temperature, humidity, windSpeed). -/
noncomputable def synthesize_spec (pm25 temperature humidity windSpeed : ℝ)
    (offsetHours : ℕ) : ℝ × ℝ × ℝ × ℝ :=
  let hourFactor := Real.sin ((offsetHours : ℝ) / 12 * Real.pi) * 0.15
  let pm25_out := max 0 (pm25 * (1 + hourFactor) + hourFactor * pm25 * 0.2)
  let tempCycle := Real.cos ((offsetHours : ℝ) / 12 * Real.pi) * 3
  let temperature_out := min 50 (max (-20) (temperature + tempCycle))
  let humidity_out := min 100 (max 0 (humidity - tempCycle * 2))
  let windCycle := Real.sin ((offsetHours : ℝ) / 8 * Real.pi) * windSpeed * 0.2
  let wind_out := max 0.1 (windSpeed + windCycle)
  (pm25_out, temperature_out, humidity_out, wind_out)

/-- Timestamps of a `/forecast` result (empty on error): used to state closed
facts about concrete runs. -/
def forecastTimes (x : Except (String × ℕ) ForecastResponse) : List ℚ :=
  match x with
  | .ok r => r.forecasts.map ForecastPoint.time
  | .error _ => []

/-- `model_used` field of a `/forecast` result (sentinel on error). -/
def modelUsedOf (x : Except (String × ℕ) ForecastResponse) : String :=
  match x with
  | .ok r => r.model_used
  | .error _ => "<error>"

/-- A trivially available classifier that always answers category 0 (used to
instantiate theorems at concrete collaborators). -/
def classifyW : List ℝ → Except String ℤ := fun _ => .ok 0

/-- The total function `classifyW` computes. -/
def catF0 : List ℝ → ℤ := fun _ => 0

/-- A degenerate admissible random draw: always the low bound. -/
def randLow : ℤ → ℤ → ℤ := fun lo _ => lo

/-- A classifier whose `predict` always raises. -/
def classifyErr : List ℝ → Except String ℤ := fun _ => .error "predict failed"

/-- Concrete collaborators: model loaded, `randint` returns the low bound, a
clock frozen at 0. -/
def depsW : Deps :=
  { model := some classifyW
    randint := fun _ lo _ => lo
    now := fun _ => 0
    strftime_a := fun _ => "Mon"
    strftime_bd := fun _ => "Jan 01" }

/-- Collaborators whose model failed to load. -/
def depsNone : Deps :=
  { model := none
    randint := fun _ lo _ => lo
    now := fun _ => 0
    strftime_a := fun _ => "Mon"
    strftime_bd := fun _ => "Jan 01" }

/-- Collaborators whose classifier raises on every call. -/
def depsErr : Deps :=
  { model := some classifyErr
    randint := fun _ lo _ => lo
    now := fun _ => 0
    strftime_a := fun _ => "Mon"
    strftime_bd := fun _ => "Jan 01" }

/-- Collaborators whose clock advances by half an hour between successive
`datetime.now()` calls — a monotone clock on which per-point re-reading is
observable. -/
def depsDrift : Deps :=
  { model := some classifyW
    randint := fun _ lo _ => lo
    now := fun k => (k : ℚ) / 2
    strftime_a := fun _ => "Mon"
    strftime_bd := fun _ => "Jan 01" }

/-! ### Structural lemmas about the assembly loop -/

theorem assembleFrom_ok_shifted {ε α : Type} (f : ℕ → Except ε α) (g : ℕ → α)
    (h : ∀ k, f k = .ok (g k)) :
    ∀ n i, assembleFrom f i n = .ok ((List.range n).map fun j => g (i + j)) := by
  intro n
  induction n with
  | zero => intro i; rfl
  | succ m ih =>
    intro i
    have step : ∀ j, g (i + 1 + j) = g (i + (j + 1)) := by
      intro j
      rw [Nat.add_assoc, Nat.add_comm 1 j]
    simp [assembleFrom, h i, ih (i + 1), Except.bind, Except.map,
      List.range_succ_eq_map, List.map_map, Function.comp, step]

theorem assembleFrom_ok_all {ε α : Type} (f : ℕ → Except ε α) (g : ℕ → α)
    (h : ∀ k, f k = .ok (g k)) (n : ℕ) :
    assembleFrom f 0 n = .ok ((List.range n).map g) := by
  have := assembleFrom_ok_shifted f g h n 0
  simpa using this

theorem assembleFrom_error_of_exists {ε α : Type} (f : ℕ → Except ε α) :
    ∀ n i k, k < n → (∀ a, f (i + k) ≠ .ok a) →
      ∃ e, assembleFrom f i n = .error e := by
  intro n
  induction n with
  | zero => intro i k hk _; omega
  | succ m ih =>
    intro i k hk hkerr
    cases hfi : f i with
    | error e => exact ⟨e, by simp [assembleFrom, hfi, Except.bind]⟩
    | ok a =>
      cases k with
      | zero => exact absurd hfi (by simpa using hkerr a)
      | succ k2 =>
        obtain ⟨e, he⟩ := ih (i + 1) k2 (by omega)
          (by
            intro a2
            have := hkerr a2
            rw [show i + 1 + k2 = i + (k2 + 1) by omega]
            exact this)
        exact ⟨e, by simp [assembleFrom, hfi, Except.bind, he, Except.map]⟩

theorem get_map_range {α : Type} (n : ℕ) (f : ℕ → α) (j : ℕ)
    (hj : j < ((List.range n).map f).length) :
    ((List.range n).map f).get ⟨j, hj⟩ = f j := by
  simp at hj
  simp [List.get_eq_getElem, List.getElem_map, List.getElem_range]

theorem getD_map_range {α : Type} (n : ℕ) (f : ℕ → α) (j : ℕ) (d : α) (hj : j < n) :
    ((List.range n).map f).getD j d = f j := by
  rw [List.getD_eq_getElem _ _ (by simpa using hj)]
  simp [List.getElem_map, List.getElem_range]

theorem forecast_point_ok (deps : Deps) (classify : List ℝ → Except String ℤ)
    (catF : List ℝ → ℤ) (req : ForecastRequest) (interval_hours k : ℕ)
    (hc : ∀ v, classify v = .ok (catF v)) :
    forecast_point deps classify req interval_hours k =
      .ok (purePoint deps catF req interval_hours k) := by
  simp only [forecast_point, purePoint, hc, Except.map]

/-- When the model is loaded and its `predict` never raises (it computes the
total function `catF`), the handler returns the fully described payload. -/
theorem forecast_eq_pure (deps : Deps) (classify : List ℝ → Except String ℤ)
    (catF : List ℝ → ℤ) (req : ForecastRequest)
    (hm : deps.model = some classify) (hc : ∀ v, classify v = .ok (catF v)) :
    forecast deps req = .ok (pureForecast deps catF req) := by
  have hasm := assembleFrom_ok_all
    (forecast_point deps classify req (forecast_params req.type).2)
    (purePoint deps catF req (forecast_params req.type).2)
    (fun k => forecast_point_ok deps classify catF req (forecast_params req.type).2 k hc)
    (pyRangeLen (forecast_params req.type).1 (forecast_params req.type).2)
  unfold forecast
  rw [hm]
  dsimp only
  rw [hasm]
  rfl

theorem forecast_params_cases (t : String) :
    forecast_params t = (48, 1) ∨ forecast_params t = (168, 24) ∨
      forecast_params t = (336, 24) := by
  unfold forecast_params
  split_ifs <;> simp

/-! ### Bounds on the AQI mapper -/

theorem map_category_to_aqi_overall_bounds (rand : ℤ → ℤ → ℤ)
    (hrand : ∀ lo hi, lo < hi → lo ≤ rand lo hi ∧ rand lo hi < hi) (c : ℤ) :
    100 ≤ map_category_to_aqi rand c ∧ map_category_to_aqi rand c ≤ 1000 := by
  unfold map_category_to_aqi CATEGORY_TO_AQI
  split_ifs <;> simp only [Option.getD_some, Option.getD_none]
  · have := hrand 100 (200 + 1) (by norm_num); omega
  · have := hrand 200 (350 + 1) (by norm_num); omega
  · have := hrand 350 (500 + 1) (by norm_num); omega
  · have := hrand 500 (700 + 1) (by norm_num); omega
  · have := hrand 700 (900 + 1) (by norm_num); omega
  · have := hrand 900 (1000 + 1) (by norm_num); omega
  · have := hrand 100 (200 + 1) (by norm_num); omega

/-! ### Claim C2: sequence length equals horizon/interval -/

/-- C2: for every valid snapshot and every granularity, the returned forecast
sequence has length exactly horizon/interval: 48 points for hourly
(horizon 48, interval 1), 7 for daily (horizon 168, interval 24), and 14 for
extended (horizon 336, interval 24). -/
theorem forecast_sequence_length (deps : Deps) (classify : List ℝ → Except String ℤ)
    (catF : List ℝ → ℤ) (req : ForecastRequest)
    (hm : deps.model = some classify) (hc : ∀ v, classify v = .ok (catF v)) :
    ∃ r, forecast deps req = .ok r ∧
      r.forecasts.length = (forecast_params req.type).1 / (forecast_params req.type).2 ∧
      (req.type = "hourly" → forecast_params req.type = (48, 1) ∧ r.forecasts.length = 48) ∧
      (req.type = "daily" → forecast_params req.type = (168, 24) ∧ r.forecasts.length = 7) ∧
      (req.type = "extended" → forecast_params req.type = (336, 24) ∧ r.forecasts.length = 14) := by
  have hlen : (pureForecast deps catF req).forecasts.length =
      pyRangeLen (forecast_params req.type).1 (forecast_params req.type).2 := by
    simp [pureForecast]
  refine ⟨pureForecast deps catF req, forecast_eq_pure deps classify catF req hm hc, ?_, ?_, ?_, ?_⟩
  · rw [hlen]
    rcases forecast_params_cases req.type with h | h | h <;> rw [h] <;> decide
  · intro ht
    have h : forecast_params req.type = (48, 1) := by rw [ht]; decide
    refine ⟨h, ?_⟩
    rw [hlen, h]
    decide
  · intro ht
    have h : forecast_params req.type = (168, 24) := by rw [ht]; decide
    refine ⟨h, ?_⟩
    rw [hlen, h]
    decide
  · intro ht
    have h : forecast_params req.type = (336, 24) := by rw [ht]; decide
    refine ⟨h, ?_⟩
    rw [hlen, h]
    decide

/-- Witness for C2 at the default (hourly) request and concrete collaborators. -/
theorem forecast_sequence_length_witness :
    depsW.model = some classifyW ∧ (∀ v, classifyW v = .ok (catF0 v)) ∧
    ∃ r, forecast depsW {} = .ok r ∧
      r.forecasts.length =
        (forecast_params ({} : ForecastRequest).type).1 /
          (forecast_params ({} : ForecastRequest).type).2 ∧
      (({} : ForecastRequest).type = "hourly" →
        forecast_params ({} : ForecastRequest).type = (48, 1) ∧ r.forecasts.length = 48) ∧
      (({} : ForecastRequest).type = "daily" →
        forecast_params ({} : ForecastRequest).type = (168, 24) ∧ r.forecasts.length = 7) ∧
      (({} : ForecastRequest).type = "extended" →
        forecast_params ({} : ForecastRequest).type = (336, 24) ∧ r.forecasts.length = 14) :=
  ⟨rfl, fun _ => rfl, forecast_sequence_length depsW classifyW catF0 {} rfl (fun _ => rfl)⟩

/-! ### Claim C6: mutually exclusive calendar label sets -/

/-- C6: every produced forecast point carries an hour label with null day/date
labels when interval = 1 (hourly), and weekday/date labels with a null hour
label when interval = 24 (daily/extended); the interval is always 1 or 24. -/
theorem forecast_label_exclusivity (deps : Deps) (classify : List ℝ → Except String ℤ)
    (catF : List ℝ → ℤ) (req : ForecastRequest)
    (hm : deps.model = some classify) (hc : ∀ v, classify v = .ok (catF v)) :
    ∃ r, forecast deps req = .ok r ∧
      ((forecast_params req.type).2 = 1 ∨ (forecast_params req.type).2 = 24) ∧
      ∀ p ∈ r.forecasts,
        ((forecast_params req.type).2 = 1 →
          p.hour.isSome = true ∧ p.day = none ∧ p.date = none) ∧
        ((forecast_params req.type).2 = 24 →
          p.hour = none ∧ p.day.isSome = true ∧ p.date.isSome = true) := by
  refine ⟨pureForecast deps catF req, forecast_eq_pure deps classify catF req hm hc, ?_, ?_⟩
  · rcases forecast_params_cases req.type with h | h | h <;> rw [h] <;> simp
  · intro p hp
    simp only [pureForecast, List.mem_map] at hp
    obtain ⟨k, _, rfl⟩ := hp
    constructor
    · intro h1
      simp [purePoint, h1]
    · intro h24
      simp [purePoint, h24]

/-- Witness for C6 at the default (hourly) request and concrete collaborators. -/
theorem forecast_label_exclusivity_witness :
    depsW.model = some classifyW ∧ (∀ v, classifyW v = .ok (catF0 v)) ∧
    ∃ r, forecast depsW {} = .ok r ∧
      ((forecast_params ({} : ForecastRequest).type).2 = 1 ∨
        (forecast_params ({} : ForecastRequest).type).2 = 24) ∧
      ∀ p ∈ r.forecasts,
        ((forecast_params ({} : ForecastRequest).type).2 = 1 →
          p.hour.isSome = true ∧ p.day = none ∧ p.date = none) ∧
        ((forecast_params ({} : ForecastRequest).type).2 = 24 →
          p.hour = none ∧ p.day.isSome = true ∧ p.date.isSome = true) :=
  ⟨rfl, fun _ => rfl, forecast_label_exclusivity depsW classifyW catF0 {} rfl (fun _ => rfl)⟩

/-! ### Claim C8: unrecognized granularity falls through to extended -/

/-- C8: a request whose type is any value other than "hourly" or "daily" is not
rejected: it takes the extended branch (horizon 336, interval 24), yields a
14-point series, and the unrecognized type value is echoed back. -/
theorem forecast_unknown_type_extended (deps : Deps) (classify : List ℝ → Except String ℤ)
    (catF : List ℝ → ℤ) (req : ForecastRequest)
    (hm : deps.model = some classify) (hc : ∀ v, classify v = .ok (catF v))
    (h1 : req.type ≠ "hourly") (h2 : req.type ≠ "daily") :
    forecast_params req.type = (336, 24) ∧
    ∃ r, forecast deps req = .ok r ∧ r.forecasts.length = 14 ∧ r.forecast_type = req.type := by
  have hp : forecast_params req.type = (336, 24) := by
    unfold forecast_params
    rw [if_neg h1, if_neg h2]
  refine ⟨hp, pureForecast deps catF req, forecast_eq_pure deps classify catF req hm hc, ?_, rfl⟩
  simp [pureForecast, hp]
  decide

/-- Witness for C8 at the out-of-domain type "weekly". -/
theorem forecast_unknown_type_extended_witness :
    depsW.model = some classifyW ∧ (∀ v, classifyW v = .ok (catF0 v)) ∧
    ({ type := "weekly" } : ForecastRequest).type ≠ "hourly" ∧
    ({ type := "weekly" } : ForecastRequest).type ≠ "daily" ∧
    (forecast_params ({ type := "weekly" } : ForecastRequest).type = (336, 24) ∧
      ∃ r, forecast depsW { type := "weekly" } = .ok r ∧ r.forecasts.length = 14 ∧
        r.forecast_type = ({ type := "weekly" } : ForecastRequest).type) :=
  ⟨rfl, fun _ => rfl, by decide, by decide,
    forecast_unknown_type_extended depsW classifyW catF0 { type := "weekly" } rfl (fun _ => rfl)
      (by decide) (by decide)⟩

/-! ### Claim C10: response fields (corrected: the model identifier) -/

/-- C10 counterexample: on a concrete successful request the model identifier
field is "xgboost_pm25_classifier", not "forecast_classifier_v1" as the claim
states. -/
theorem forecast_model_used_counterexample :
    modelUsedOf (forecast depsW {}) = "xgboost_pm25_classifier" ∧
    modelUsedOf (forecast depsW {}) ≠ "forecast_classifier_v1" := by
  have h := forecast_eq_pure depsW classifyW catF0 {} rfl (fun _ => rfl)
  rw [show modelUsedOf (forecast depsW {}) = "xgboost_pm25_classifier" by
    rw [h]
    rfl]
  exact ⟨rfl, by decide⟩

/-- C10 (amended): every successful response carries status "success", the
echoed forecast type, the forecasts sequence, the index range [100, 1000], and
the model identifier "xgboost_pm25_classifier". -/
theorem forecast_response_fields (deps : Deps) (classify : List ℝ → Except String ℤ)
    (catF : List ℝ → ℤ) (req : ForecastRequest)
    (hm : deps.model = some classify) (hc : ∀ v, classify v = .ok (catF v)) :
    ∃ r, forecast deps req = .ok r ∧ r.status = "success" ∧ r.forecast_type = req.type ∧
      r.aqi_range = (100, 1000) ∧ r.model_used = "xgboost_pm25_classifier" :=
  ⟨pureForecast deps catF req, forecast_eq_pure deps classify catF req hm hc, rfl, rfl, rfl, rfl⟩

/-- Witness for the amended C10 at concrete collaborators. -/
theorem forecast_response_fields_witness :
    depsW.model = some classifyW ∧ (∀ v, classifyW v = .ok (catF0 v)) ∧
    ∃ r, forecast depsW {} = .ok r ∧ r.status = "success" ∧
      r.forecast_type = ({} : ForecastRequest).type ∧
      r.aqi_range = (100, 1000) ∧ r.model_used = "xgboost_pm25_classifier" :=
  ⟨rfl, fun _ => rfl, forecast_response_fields depsW classifyW catF0 {} rfl (fun _ => rfl)⟩

/-! ### Claim C1: timestamps (corrected: the clock is re-read per point) -/

/-- C1 counterexample: the loop calls `datetime.now()` anew at every iteration
(line 126), so with a monotone clock that advances half an hour between
readings, an hourly run's first two timestamps are 0 and 3/2: the gap is not
exactly the interval (1 hour), and point[1] differs from now + 1·interval for
the reference reading now = 0 taken at the start of assembly. -/
theorem forecast_timestamps_counterexample :
    (forecastTimes (forecast depsDrift {})).getD 0 99 = 0 ∧
    (forecastTimes (forecast depsDrift {})).getD 1 99 = 3 / 2 ∧
    (forecastTimes (forecast depsDrift {})).length = 48 ∧
    (3 / 2 : ℚ) - 0 ≠ 1 ∧ (3 / 2 : ℚ) ≠ 0 + 1 * 1 := by
  have h := forecast_eq_pure depsDrift classifyW catF0 {} rfl (fun _ => rfl)
  have hty : forecast_params ({} : ForecastRequest).type = (48, 1) := by decide
  have htimes : forecastTimes (forecast depsDrift {}) =
      (List.range 48).map (ForecastPoint.time ∘ purePoint depsDrift catF0 {} 1) := by
    rw [h]
    simp only [forecastTimes, pureForecast, List.map_map]
    rw [hty]
    rfl
  have htime : ∀ k : ℕ, (ForecastPoint.time ∘ purePoint depsDrift catF0 {} 1) k =
      (k : ℚ) / 2 + (k * 1 : ℕ) := by
    intro k
    rfl
  refine ⟨?_, ?_, ?_, by norm_num, by norm_num⟩
  · rw [htimes, getD_map_range 48 _ 0 99 (by norm_num), htime]
    norm_num
  · rw [htimes, getD_map_range 48 _ 1 99 (by norm_num), htime]
    norm_num
  · rw [htimes]
    simp

/-- C1 (amended): the reference time is re-read from the clock at each point,
so point[j]'s timestamp equals now_j + j·interval hours where now_j is the
clock reading taken while assembling point j; when the clock does not advance
during assembly the claim's property holds: point[j] = now + j·interval,
and consecutive timestamps strictly increase by exactly `interval` hours. -/
theorem forecast_timestamps (deps : Deps) (classify : List ℝ → Except String ℤ)
    (catF : List ℝ → ℤ) (req : ForecastRequest)
    (hm : deps.model = some classify) (hc : ∀ v, classify v = .ok (catF v)) :
    ∃ r, forecast deps req = .ok r ∧
      (∀ j (hj : j < r.forecasts.length),
        (r.forecasts.get ⟨j, hj⟩).time =
          deps.now j + ((j * (forecast_params req.type).2 : ℕ) : ℚ)) ∧
      ((∀ k, deps.now k = deps.now 0) →
        (∀ j (hj : j < r.forecasts.length),
          (r.forecasts.get ⟨j, hj⟩).time =
            deps.now 0 + ((j * (forecast_params req.type).2 : ℕ) : ℚ)) ∧
        (∀ j (hj1 : j + 1 < r.forecasts.length) (hj : j < r.forecasts.length),
          (r.forecasts.get ⟨j + 1, hj1⟩).time =
            (r.forecasts.get ⟨j, hj⟩).time + ((forecast_params req.type).2 : ℚ) ∧
          (r.forecasts.get ⟨j, hj⟩).time < (r.forecasts.get ⟨j + 1, hj1⟩).time)) := by
  have hpos : 0 < (forecast_params req.type).2 := by
    rcases forecast_params_cases req.type with h | h | h <;> rw [h] <;> decide
  refine ⟨pureForecast deps catF req, forecast_eq_pure deps classify catF req hm hc, ?_, ?_⟩
  · intro j hj
    have hg : (pureForecast deps catF req).forecasts.get ⟨j, hj⟩ =
        purePoint deps catF req (forecast_params req.type).2 j :=
      get_map_range _ _ j hj
    rw [hg]
    rfl
  · intro hconst
    constructor
    · intro j hj
      have hg : (pureForecast deps catF req).forecasts.get ⟨j, hj⟩ =
          purePoint deps catF req (forecast_params req.type).2 j :=
        get_map_range _ _ j hj
      rw [hg, show ForecastPoint.time (purePoint deps catF req (forecast_params req.type).2 j) =
        deps.now j + ((j * (forecast_params req.type).2 : ℕ) : ℚ) from rfl, hconst j]
    · intro j hj1 hj
      have hg1 : (pureForecast deps catF req).forecasts.get ⟨j + 1, hj1⟩ =
          purePoint deps catF req (forecast_params req.type).2 (j + 1) :=
        get_map_range _ _ (j + 1) hj1
      have hg : (pureForecast deps catF req).forecasts.get ⟨j, hj⟩ =
          purePoint deps catF req (forecast_params req.type).2 j :=
        get_map_range _ _ j hj
      rw [hg1, hg,
        show ForecastPoint.time (purePoint deps catF req (forecast_params req.type).2 (j + 1)) =
          deps.now (j + 1) + (((j + 1) * (forecast_params req.type).2 : ℕ) : ℚ) from rfl,
        show ForecastPoint.time (purePoint deps catF req (forecast_params req.type).2 j) =
          deps.now j + ((j * (forecast_params req.type).2 : ℕ) : ℚ) from rfl,
        hconst (j + 1), hconst j]
      constructor
      · push_cast
        ring
      · have hlt : (j * (forecast_params req.type).2 : ℕ) <
            ((j + 1) * (forecast_params req.type).2 : ℕ) := by
          have := hpos
          exact Nat.mul_lt_mul_of_lt_of_le (Nat.lt_succ_self j) (Nat.le_refl _) this
        have hcast : ((j * (forecast_params req.type).2 : ℕ) : ℚ) <
            (((j + 1) * (forecast_params req.type).2 : ℕ) : ℚ) := by
          exact_mod_cast hlt
        linarith

/-- Witness for the amended C1 at a frozen clock and concrete collaborators. -/
theorem forecast_timestamps_witness :
    depsW.model = some classifyW ∧ (∀ v, classifyW v = .ok (catF0 v)) ∧
    ∃ r, forecast depsW {} = .ok r ∧
      (∀ j (hj : j < r.forecasts.length),
        (r.forecasts.get ⟨j, hj⟩).time =
          depsW.now j + ((j * (forecast_params ({} : ForecastRequest).type).2 : ℕ) : ℚ)) ∧
      ((∀ k, depsW.now k = depsW.now 0) →
        (∀ j (hj : j < r.forecasts.length),
          (r.forecasts.get ⟨j, hj⟩).time =
            depsW.now 0 + ((j * (forecast_params ({} : ForecastRequest).type).2 : ℕ) : ℚ)) ∧
        (∀ j (hj1 : j + 1 < r.forecasts.length) (hj : j < r.forecasts.length),
          (r.forecasts.get ⟨j + 1, hj1⟩).time =
            (r.forecasts.get ⟨j, hj⟩).time + ((forecast_params ({} : ForecastRequest).type).2 : ℚ) ∧
          (r.forecasts.get ⟨j, hj⟩).time < (r.forecasts.get ⟨j + 1, hj1⟩).time)) :=
  ⟨rfl, fun _ => rfl, forecast_timestamps depsW classifyW catF0 {} rfl (fun _ => rfl)⟩

/-! ### Claim C9: classifier output is echoed unvalidated; index stays bounded -/

/-- C9: the assembler never validates or alters the classifier's output: the
emitted point's category equals whatever integer the classifier computed for
that point's feature vector (for every total classifier, including ones
returning categories outside [0,5]), while the point's index still lies in
[100, 1000]. -/
theorem forecast_category_passthrough (deps : Deps) (classify : List ℝ → Except String ℤ)
    (catF : List ℝ → ℤ) (req : ForecastRequest)
    (hm : deps.model = some classify) (hc : ∀ v, classify v = .ok (catF v))
    (hrand : ∀ k lo hi, lo < hi → lo ≤ deps.randint k lo hi ∧ deps.randint k lo hi < hi) :
    ∃ r, forecast deps req = .ok r ∧
      ∀ j (hj : j < r.forecasts.length),
        (r.forecasts.get ⟨j, hj⟩).category =
          catF (generate_forecast_features req.pm25 req.temperature req.humidity req.wind_speed
            (j * (forecast_params req.type).2)) ∧
        100 ≤ (r.forecasts.get ⟨j, hj⟩).aqi ∧ (r.forecasts.get ⟨j, hj⟩).aqi ≤ 1000 := by
  refine ⟨pureForecast deps catF req, forecast_eq_pure deps classify catF req hm hc, ?_⟩
  intro j hj
  have hg : (pureForecast deps catF req).forecasts.get ⟨j, hj⟩ =
      purePoint deps catF req (forecast_params req.type).2 j :=
    get_map_range _ _ j hj
  rw [hg]
  have hb := map_category_to_aqi_overall_bounds (deps.randint j) (hrand j)
    (catF (generate_forecast_features req.pm25 req.temperature req.humidity req.wind_speed
      (j * (forecast_params req.type).2)))
  exact ⟨rfl, hb.1, hb.2⟩

/-- Witness for C9 with a classifier fixed at an out-of-range category (7) and
an in-contract random source. -/
theorem forecast_category_passthrough_witness :
    depsW.model = some classifyW ∧ (∀ v, classifyW v = .ok (catF0 v)) ∧
    (∀ k lo hi, lo < hi → lo ≤ depsW.randint k lo hi ∧ depsW.randint k lo hi < hi) ∧
    ∃ r, forecast depsW {} = .ok r ∧
      ∀ j (hj : j < r.forecasts.length),
        (r.forecasts.get ⟨j, hj⟩).category =
          catF0 (generate_forecast_features ({} : ForecastRequest).pm25
            ({} : ForecastRequest).temperature ({} : ForecastRequest).humidity
            ({} : ForecastRequest).wind_speed
            (j * (forecast_params ({} : ForecastRequest).type).2)) ∧
        100 ≤ (r.forecasts.get ⟨j, hj⟩).aqi ∧ (r.forecasts.get ⟨j, hj⟩).aqi ≤ 1000 :=
  ⟨rfl, fun _ => rfl, fun _ _ _ h => ⟨le_refl _, h⟩,
    forecast_category_passthrough depsW classifyW catF0 {} rfl (fun _ => rfl)
      (fun _ _ _ h => ⟨le_refl _, h⟩)⟩

/-! ### Claim C5: error handling aborts the whole assembly -/

/-- C5: when the model is not loaded the request is refused with the 500
service error before any point is produced; when the classifier errors on any
point of the horizon, the whole assembly aborts into a single 400 service
error and no (partial) forecast series is returned. -/
theorem forecast_error_aborts (deps : Deps) (classify : List ℝ → Except String ℤ)
    (req : ForecastRequest) :
    (deps.model = none → forecast deps req = .error ("Model not loaded", 500)) ∧
    (deps.model = some classify →
      ∀ k, k < pyRangeLen (forecast_params req.type).1 (forecast_params req.type).2 →
        (∀ a, classify (generate_forecast_features req.pm25 req.temperature req.humidity
          req.wind_speed (k * (forecast_params req.type).2)) ≠ .ok a) →
        (∃ e, forecast deps req = .error (e, 400)) ∧ ∀ r, forecast deps req ≠ .ok r) := by
  constructor
  · intro hn
    unfold forecast
    rw [hn]
  · intro hm k hk herr
    have hfp : ∀ a, forecast_point deps classify req (forecast_params req.type).2 (0 + k) ≠
        .ok a := by
      rw [Nat.zero_add]
      intro a hab
      simp only [forecast_point] at hab
      cases hcf : classify (generate_forecast_features req.pm25 req.temperature req.humidity
          req.wind_speed (k * (forecast_params req.type).2)) with
      | error e =>
        rw [hcf] at hab
        exact Except.noConfusion hab
      | ok c => exact herr c hcf
    obtain ⟨e, he⟩ := assembleFrom_error_of_exists
      (forecast_point deps classify req (forecast_params req.type).2)
      (pyRangeLen (forecast_params req.type).1 (forecast_params req.type).2) 0 k hk hfp
    have hfe : forecast deps req = .error (e, 400) := by
      unfold forecast
      rw [hm]
      dsimp only
      rw [he]
    exact ⟨⟨e, hfe⟩, fun r hr => by rw [hfe] at hr; exact Except.noConfusion hr⟩

/-- Witness for C5: a missing model is refused with the 500 error, and a
raising classifier aborts an hourly run. -/
theorem forecast_error_aborts_witness :
    (depsNone.model = none ∧ forecast depsNone {} = .error ("Model not loaded", 500)) ∧
    (depsErr.model = some classifyErr ∧
      0 < pyRangeLen (forecast_params ({} : ForecastRequest).type).1
        (forecast_params ({} : ForecastRequest).type).2 ∧
      (∃ e, forecast depsErr {} = .error (e, 400)) ∧ ∀ r, forecast depsErr {} ≠ .ok r) := by
  have h0 : (0 : ℕ) < pyRangeLen (forecast_params ({} : ForecastRequest).type).1
      (forecast_params ({} : ForecastRequest).type).2 := by decide
  have herr : ∀ a, classifyErr (generate_forecast_features ({} : ForecastRequest).pm25
      ({} : ForecastRequest).temperature ({} : ForecastRequest).humidity
      ({} : ForecastRequest).wind_speed
      (0 * (forecast_params ({} : ForecastRequest).type).2)) ≠ .ok a :=
    fun a hab => Except.noConfusion hab
  have h := forecast_error_aborts depsErr classifyErr ({} : ForecastRequest)
  have h5 := forecast_error_aborts depsNone classifyErr ({} : ForecastRequest)
  exact ⟨⟨rfl, h5.1 rfl⟩, ⟨rfl, h0, (h.2 rfl 0 h0 herr).1, (h.2 rfl 0 h0 herr).2⟩⟩

/-! ### Claim C4: the index mapper stays inside its category's range -/

/-- C4: for every category in [0,5] and every admissible random draw, the
mapper returns an integer inside the fixed inclusive table range of that
category (whose entries are exactly the six listed pairs), and for every
category outside [0,5] it returns an integer in the fallback range
[100, 200]. -/
theorem map_category_to_aqi_table_range (rand : ℤ → ℤ → ℤ)
    (hrand : ∀ lo hi, lo < hi → lo ≤ rand lo hi ∧ rand lo hi < hi) (c : ℤ) :
    (∀ lo hi, CATEGORY_TO_AQI c = some (lo, hi) →
      lo ≤ map_category_to_aqi rand c ∧ map_category_to_aqi rand c ≤ hi) ∧
    (CATEGORY_TO_AQI c = none →
      100 ≤ map_category_to_aqi rand c ∧ map_category_to_aqi rand c ≤ 200) ∧
    ((0 ≤ c ∧ c ≤ 5) ↔ (CATEGORY_TO_AQI c).isSome = true) ∧
    (CATEGORY_TO_AQI 0 = some (100, 200) ∧ CATEGORY_TO_AQI 1 = some (200, 350) ∧
      CATEGORY_TO_AQI 2 = some (350, 500) ∧ CATEGORY_TO_AQI 3 = some (500, 700) ∧
      CATEGORY_TO_AQI 4 = some (700, 900) ∧ CATEGORY_TO_AQI 5 = some (900, 1000)) := by
  refine ⟨?_, ?_, ?_, by decide⟩
  · intro lo hi htab
    have hlohi : lo < hi := by
      unfold CATEGORY_TO_AQI at htab
      split_ifs at htab <;> simp_all <;> omega
    unfold map_category_to_aqi
    rw [htab]
    simp only [Option.getD_some]
    have := hrand lo (hi + 1) (by omega)
    omega
  · intro hnone
    unfold map_category_to_aqi
    rw [hnone]
    simp only [Option.getD_none]
    have := hrand 100 (200 + 1) (by norm_num)
    omega
  · constructor
    · rintro ⟨h0, h5⟩
      unfold CATEGORY_TO_AQI
      split_ifs <;> first
        | rfl
        | omega
    · intro hs
      unfold CATEGORY_TO_AQI at hs
      split_ifs at hs <;> first
        | omega
        | exact absurd hs (by simp)

/-- Witness for C4 at category 3 with the low-bound draw. -/
theorem map_category_to_aqi_table_range_witness :
    (∀ lo hi : ℤ, lo < hi → lo ≤ randLow lo hi ∧ randLow lo hi < hi) ∧
    ((∀ lo hi, CATEGORY_TO_AQI 3 = some (lo, hi) →
      lo ≤ map_category_to_aqi randLow 3 ∧ map_category_to_aqi randLow 3 ≤ hi) ∧
    (CATEGORY_TO_AQI 3 = none →
      100 ≤ map_category_to_aqi randLow 3 ∧ map_category_to_aqi randLow 3 ≤ 200) ∧
    ((0 ≤ (3 : ℤ) ∧ (3 : ℤ) ≤ 5) ↔ (CATEGORY_TO_AQI 3).isSome = true) ∧
    (CATEGORY_TO_AQI 0 = some (100, 200) ∧ CATEGORY_TO_AQI 1 = some (200, 350) ∧
      CATEGORY_TO_AQI 2 = some (350, 500) ∧ CATEGORY_TO_AQI 3 = some (500, 700) ∧
      CATEGORY_TO_AQI 4 = some (700, 900) ∧ CATEGORY_TO_AQI 5 = some (900, 1000))) :=
  ⟨fun _ _ h => ⟨le_refl _, h⟩,
    map_category_to_aqi_table_range randLow (fun _ _ h => ⟨le_refl _, h⟩) 3⟩

/-! ### Claim C3: the synthesizer computes exactly the §4.1 formulas -/

/-- C3: for every base snapshot and offset, `generate_forecast_features`
returns the ordered 4-tuple (pm25, temperature, humidity, windSpeed) computed
exactly by the §4.1 formulas (as `synthesize_spec` transcribes them), and is a
pure function of (base, offset): two calls with equal arguments give exactly
equal vectors. -/
theorem generate_features_matches_spec (p t h w : ℝ) (offset : ℕ) :
    generate_forecast_features p t h w offset =
      [(synthesize_spec p t h w offset).1,
       (synthesize_spec p t h w offset).2.1,
       (synthesize_spec p t h w offset).2.2.1,
       (synthesize_spec p t h w offset).2.2.2] ∧
    generate_forecast_features p t h w offset = generate_forecast_features p t h w offset := by
  refine ⟨?_, rfl⟩
  have hclamp1 : ∀ x : ℝ, max (-20) (min 50 x) = min 50 (max (-20) x) := by
    intro x
    rw [max_min_distrib_left, max_eq_right (by norm_num : (-20 : ℝ) ≤ 50)]
  have hclamp2 : ∀ x : ℝ, max 0 (min 100 x) = min 100 (max 0 x) := by
    intro x
    rw [max_min_distrib_left, max_eq_right (by norm_num : (0 : ℝ) ≤ 100)]
  simp only [generate_forecast_features, synthesize_spec, hour_factor, temp_cycle,
    hclamp1, hclamp2]

/-! ### Claim C7: the offset-0 boundary -/

/-- C7: at offset 0 the hour factor is exactly 0 and the temperature cycle is
exactly 3 (sin 0 = 0, cos 0 = 1); consequently, for the example base
(pm25 150, temperature 20, humidity 60, wind 5) with hourly granularity, the
first point's pm25 is exactly 150 after rounding to 1 decimal. -/
theorem offset_zero_boundary (deps : Deps) (classify : List ℝ → Except String ℤ)
    (catF : List ℝ → ℤ)
    (hm : deps.model = some classify) (hc : ∀ v, classify v = .ok (catF v)) :
    hour_factor 0 = 0 ∧ temp_cycle 0 = 3 ∧
    ∃ r, forecast deps {} = .ok r ∧
      r.forecasts.length = 48 ∧
      (r.forecasts.map ForecastPoint.pm25).getD 0 0 = 150 := by
  have hhf : hour_factor 0 = 0 := by
    unfold hour_factor
    norm_num
  have htc : temp_cycle 0 = 3 := by
    unfold temp_cycle
    norm_num
  have hty : forecast_params ({} : ForecastRequest).type = (48, 1) := by decide
  refine ⟨hhf, htc, pureForecast deps catF {},
    forecast_eq_pure deps classify catF {} hm hc, ?_, ?_⟩
  · simp [pureForecast, hty]
    decide
  · have hmap : (pureForecast deps catF {}).forecasts.map ForecastPoint.pm25 =
        (List.range 48).map (ForecastPoint.pm25 ∘ purePoint deps catF {} 1) := by
      simp only [pureForecast, List.map_map]
      rw [hty]
      rfl
    rw [hmap, getD_map_range 48 _ 0 0 (by norm_num)]
    show roundTo1 ((generate_forecast_features 150 20 60 5 (0 * 1)).getD 0 0) = 150
    have hfeat : (generate_forecast_features 150 20 60 5 (0 * 1)).getD 0 0 = 150 := by
      simp only [generate_forecast_features]
      rw [show (0 * 1 : ℕ) = 0 from rfl, hhf]
      norm_num
    rw [hfeat]
    unfold roundTo1
    rw [show (150 : ℝ) * 10 = ((1500 : ℤ) : ℝ) by norm_num, round_intCast]
    norm_num

/-- Witness for C7 at concrete collaborators. -/
theorem offset_zero_boundary_witness :
    depsW.model = some classifyW ∧ (∀ v, classifyW v = .ok (catF0 v)) ∧
    (hour_factor 0 = 0 ∧ temp_cycle 0 = 3 ∧
      ∃ r, forecast depsW {} = .ok r ∧
        r.forecasts.length = 48 ∧
        (r.forecasts.map ForecastPoint.pm25).getD 0 0 = 150) :=
  ⟨rfl, fun _ => rfl, offset_zero_boundary depsW classifyW catF0 rfl (fun _ => rfl)⟩

end ForecastBackend
